import Mathlib

/-!
Verification development for the research-agent repository.

The frontend namespace embeds the React pages and hooks that are present in
the sources (the Index page's handleResearch, the ResearchForm submit guard,
and the useHealthCheck hook).  The core namespace models the backend
research pipeline from the specification, because the backend implementation
files (langgraph agent, search service, synthesis) are not among the
available sources.
-/

namespace Frontend

/-- A JSON-like value, used to model the request bodies built by the UI. -/
inductive Json where
  | str : String → Json
  | num : Int → Json
  | arr : List Json → Json
  | obj : List (String × Json) → Json
deriving Repr

/-- Field lookup on a JSON object; `none` on non-objects and absent keys. -/
def lookupField : Json → String → Option Json
  | Json.obj fields, key => fields.lookup key
  | _, _ => none

/-- The body the Index page sends to POST /api/research:
`JSON.stringify({ query })` — an object with the single field `query`. -/
def researchRequestBody (query : String) : Json :=
  Json.obj [("query", Json.str query)]

/-- A timeline entry as displayed by the Timeline component:
`{id, timestamp, message, type?}`. -/
structure TimelineEvent where
  id : String
  timestamp : String
  message : String
  type : Option String
deriving Repr, DecidableEq

/-- A citation as consumed by the AnswerPanel component: `{url, title?}`. -/
structure Citation where
  url : String
  title : Option String
deriving Repr, DecidableEq

/-- One element of the `data.events` array of a backend response.  The page
reads `event.message || event`: an object may carry a `message` field, and
otherwise the event value itself (its string rendering, `raw`) is used.
JavaScript treats an empty `message` string as falsy, falling back to `raw`. -/
structure BackendEvent where
  message : Option String
  raw : String
deriving Repr, DecidableEq

/-- The message the page extracts from a backend event: `event.message || event`. -/
def BackendEvent.displayMessage (e : BackendEvent) : String :=
  match e.message with
  | some m => if m = "" then e.raw else m
  | none => e.raw

/-- The fields of the parsed JSON body `data` that a backend response may
carry.  The Index page reads `data.events`, `data.answer` and
`data.citations`; the repository documents the response as also carrying a
`timeline` array, which is modelled here so that access (or non-access) to
it can be stated. -/
structure ResponseData where
  answer : Option String
  citations : Option (List Citation)
  events : Option (List BackendEvent)
  timeline : Option (List BackendEvent)
deriving Repr, DecidableEq

/-- An HTTP response as observed through fetch: `ok`, `status`,
`statusText` and the parsed JSON body. -/
structure HttpResponse where
  ok : Bool
  status : Nat
  statusText : String
  data : ResponseData
deriving Repr, DecidableEq

/-- Outcome of the `fetch` call: the promise resolves with a response, or
rejects (network failure) with an error message. -/
inductive FetchResult where
  | resolved : HttpResponse → FetchResult
  | rejected : String → FetchResult
deriving Repr, DecidableEq

/-- The React state of the Index page that handleResearch updates. -/
structure UIState where
  isLoading : Bool
  error : Option String
  timeline : List TimelineEvent
  answer : String
  citations : List Citation
deriving Repr, DecidableEq

/-- The initial event the page appends for a request:
id "start", message built from the query. -/
def startEvent (clock : Nat → String) (query : String) : TimelineEvent :=
  { id := "start", timestamp := clock 0,
    message := "Started research for: \"" ++ query ++ "\"", type := none }

/-- The synthetic event appended right after the response arrives. -/
def processingEvent (clock : Nat → String) : TimelineEvent :=
  { id := "processing", timestamp := clock 1,
    message := "Processing research data...", type := none }

/-- The synthetic completion event appended at the end of the success path. -/
def completeEvent (clock : Nat → String) : TimelineEvent :=
  { id := "complete", timestamp := clock 2,
    message := "Research completed successfully", type := none }

/-- The event appended in the catch branch, carrying the error message. -/
def errorEvent (clock : Nat → String) (msg : String) : TimelineEvent :=
  { id := "error", timestamp := clock 1,
    message := "Error: " ++ msg, type := some "error" }

/-- The events the success path schedules with `setTimeout(..., index * 300)`,
one per element of `data.events`.  Because all of these timers are created in
the same task with strictly increasing delays, the JavaScript event loop runs
their callbacks after the synchronous remainder of handleResearch and in
index order; hence they are appended after the completion event, in index
order. -/
def deferredBackendEvents (clock : Nat → String) (d : ResponseData) : List TimelineEvent :=
  (d.events.getD []).enum.map fun ie =>
    { id := "event-" ++ toString ie.1, timestamp := clock (3 + ie.1),
      message := ie.2.displayMessage, type := none }

/-- The error message computed in the catch branch.  A non-ok response throws
`Backend error: <status> <statusText>`; a rejected fetch carries its own
message; both are Error values, so `err.message` is used. -/
def failureMessage : FetchResult → Option String
  | FetchResult.resolved r =>
      if r.ok then none
      else some ("Backend error: " ++ toString r.status ++ " " ++ r.statusText)
  | FetchResult.rejected msg => some msg

/-- The sequence of timeline events appended after the start event, in the
order the `setTimeline(prev => [...prev, e])` updates are applied. -/
def timelineAppends (clock : Nat → String) (f : FetchResult) : List TimelineEvent :=
  match f with
  | FetchResult.resolved r =>
      if r.ok then
        processingEvent clock :: completeEvent clock :: deferredBackendEvents clock r.data
      else
        [errorEvent clock ("Backend error: " ++ toString r.status ++ " " ++ r.statusText)]
  | FetchResult.rejected msg => [errorEvent clock msg]

/-- The successive values of the page's timeline state during one
handleResearch run, starting from the state right after the start event was
emitted; each later update is `prev => [...prev, e]`. -/
def timelineTrace (clock : Nat → String) (query : String) (f : FetchResult) :
    List (List TimelineEvent) :=
  List.scanl (fun acc e => acc ++ [e]) [startEvent clock query] (timelineAppends clock f)

/-- The final React state after one handleResearch run.  handleResearch
clears error/timeline/answer/citations, appends the start event, performs the
fetch, and on success sets `answer`/`citations` from the response (with the
code's fallbacks) while on any failure it records the error message and the
single error event; `finally` resets isLoading. -/
def handleResearch (clock : Nat → String) (query : String) (f : FetchResult) : UIState :=
  { isLoading := false
    error := failureMessage f
    timeline := startEvent clock query :: timelineAppends clock f
    answer :=
      match f with
      | FetchResult.resolved r =>
          if r.ok then r.data.answer.getD "No answer provided by the backend." else ""
      | FetchResult.rejected _ => ""
    citations :=
      match f with
      | FetchResult.resolved r => if r.ok then r.data.citations.getD [] else []
      | FetchResult.rejected _ => [] }

/-- JavaScript's `String.prototype.trim`: drop whitespace characters from
both ends of the string (modelled over the character list so that it is
kernel-executable). -/
def trimString (s : String) : String :=
  String.mk (((s.data.dropWhile Char.isWhitespace).reverse.dropWhile Char.isWhitespace).reverse)

/-- The submit handler of ResearchForm: submits the trimmed question only
when it is non-empty and no request is loading; returns the argument passed
to onSubmit, or `none` when onSubmit is not invoked. -/
def handleSubmit (query : String) (isLoading : Bool) : Option String :=
  if trimString query = "" ∨ isLoading = true then none else some (trimString query)

/-- Status values reported by useHealthCheck. -/
inductive HealthStatus where
  | online
  | offline
  | checking
deriving Repr, DecidableEq

/-- The timeout passed to `AbortSignal.timeout` in the health check fetch. -/
def healthCheckTimeoutMs : Nat := 5000

/-- Outcome of one health poll: the fetch resolves (with `response.ok`)
within the timeout, or the abort timer fires, or the request fails. -/
inductive HealthFetchOutcome where
  | resolved : Bool → HealthFetchOutcome
  | timedOut
  | networkError
deriving Repr, DecidableEq

/-- The status set by one checkHealth poll: `online` when the response is ok,
`offline` on a non-ok response, and `offline` in the catch branch (which
receives both network failures and the timeout abort). -/
def checkHealth : HealthFetchOutcome → HealthStatus
  | HealthFetchOutcome.resolved ok => if ok then HealthStatus.online else HealthStatus.offline
  | HealthFetchOutcome.timedOut => HealthStatus.offline
  | HealthFetchOutcome.networkError => HealthStatus.offline

/-- The useState initialiser of useHealthCheck, before any poll completes. -/
def initialHealthStatus : HealthStatus := HealthStatus.checking

/-- A concrete clock used for evaluating the model on concrete inputs. -/
def natClock : Nat → String := fun n => toString n

end Frontend

namespace Core

/-- A search result as described by the data model:
`{url, title, snippet, sourceProvider}` (fetchedAt omitted as inert). -/
structure SearchResult where
  url : String
  title : String
  snippet : String
  sourceProvider : String
deriving Repr, DecidableEq

/-- A citation of the outbound contract: `{url, title, relevanceScore}`. -/
structure Citation where
  url : String
  title : String
  relevanceScore : ℚ
deriving Repr, DecidableEq

/-- The status field of a ResearchResult. -/
inductive ResultStatus where
  | completed
  | degraded
  | blocked
  | timedOut
deriving Repr, DecidableEq

/-- The output of the synthesis engine. -/
structure SynthesisOutput where
  answerText : String
  citations : List Citation
  confidenceScore : ℚ
deriving Repr, DecidableEq

/-- The result record returned by the orchestrator. -/
structure ResearchResult where
  requestId : String
  answerText : String
  citations : List Citation
  iterationsUsed : Nat
  confidenceScore : ℚ
  status : ResultStatus
deriving Repr, DecidableEq

/-- Modelled from the spec: the sufficiency heuristic of the Reflection
Controller (backend/langgraph_agent.py is not among the sources):
`sufficient = confidenceScore >= threshold OR iterationIndex + 1 >= maxIterations`. -/
def sufficientVerdict (threshold : ℚ) (maxIterations : Nat) (iterationIndex : Nat)
    (confidence : ℚ) : Bool :=
  threshold ≤ confidence ∨ maxIterations ≤ iterationIndex + 1

/-- Modelled from the spec: the iteration loop of the Reflection Controller.
Starting at iteration index `i` with `fuel` rounds remaining, each round runs
one search/reflect step; the loop stops when the verdict is sufficient,
returning the number of iterations used. -/
def iterLoop (threshold : ℚ) (maxIterations : Nat) (confidence : Nat → ℚ) :
    Nat → Nat → Nat
  | 0, i => i
  | fuel + 1, i =>
      if sufficientVerdict threshold maxIterations i (confidence i) then i + 1
      else iterLoop threshold maxIterations confidence fuel (i + 1)

/-- Modelled from the spec: the iteration indices visited by the loop, in
visit order. -/
def iterTrace (threshold : ℚ) (maxIterations : Nat) (confidence : Nat → ℚ) :
    Nat → Nat → List Nat
  | 0, _ => []
  | fuel + 1, i =>
      if sufficientVerdict threshold maxIterations i (confidence i) then [i]
      else i :: iterTrace threshold maxIterations confidence fuel (i + 1)

/-- Modelled from the spec: iterationsUsed for one request, where the
per-iteration reflection confidence is supplied by `confidence`. -/
def iterationsUsed (threshold : ℚ) (maxIterations : Nat) (confidence : Nat → ℚ) : Nat :=
  iterLoop threshold maxIterations confidence maxIterations 0

/-- Modelled from the spec: the visited iteration indices for one request. -/
def iterationTrace (threshold : ℚ) (maxIterations : Nat) (confidence : Nat → ℚ) : List Nat :=
  iterTrace threshold maxIterations confidence maxIterations 0

/-- Modelled from the spec: the Synthesis Engine (backend synthesis service
is not among the sources).  Fails when the EvidencePool is empty; otherwise
every pool entry actually used becomes a Citation whose relevanceScore is the
deterministic formula 1/(position+1), and confidenceScore grows with
evidence count, capped at 1 (the spec leaves the concrete formulas free but
requires determinism and the [0,1] bounds). -/
def synthesize (question : String) (pool : List SearchResult) : Option SynthesisOutput :=
  match pool with
  | [] => none
  | _ =>
      some { answerText := "Based on " ++ toString pool.length ++ " sources: " ++ question
             citations := pool.enum.map fun ie =>
               { url := ie.2.url, title := ie.2.title
                 relevanceScore := 1 / (ie.1 + 1 : ℚ) }
             confidenceScore := min 1 ((pool.length : ℚ) / 8) }

/-- Modelled from the spec: the tail of the orchestrator that builds the
ResearchResult after the iteration loop.  An empty pool (SynthesisError)
degrades to a fallback answer with no citations; otherwise the result is
completed when the latest reflection confidence met the threshold and
degraded when the iteration budget ran out below the threshold. -/
def buildResult (requestId : String) (question : String) (pool : List SearchResult)
    (latestConfidence threshold : ℚ) (iterations : Nat) : ResearchResult :=
  match synthesize question pool with
  | none =>
      { requestId := requestId
        answerText := "I could not find enough evidence to answer this question."
        citations := [], iterationsUsed := iterations
        confidenceScore := 0, status := ResultStatus.degraded }
  | some out =>
      { requestId := requestId, answerText := out.answerText
        citations := out.citations, iterationsUsed := iterations
        confidenceScore := out.confidenceScore
        status :=
          if threshold ≤ latestConfidence then ResultStatus.completed
          else ResultStatus.degraded }

/-- One call to the search provider capability:
`search(text) -> [SearchResult] | RateLimited | ProviderError`. -/
inductive ProviderOutcome where
  | results : List SearchResult → ProviderOutcome
  | rateLimited
  | failed
deriving Repr, DecidableEq

/-- Errors the search connector can surface after its retry loop. -/
inductive SearchError where
  | transientRateLimited
  | permanent
deriving Repr, DecidableEq

/-- Modelled from the spec: the backoff delay (ms units abstracted) before
retry number `attempt`, exponential with base 2; the jitter term is an
arbitrary non-negative parameter. -/
def backoffDelay (jitter : Nat → Nat) (attempt : Nat) : Nat :=
  2 ^ attempt + jitter attempt

/-- Modelled from the spec: the retry loop of the Search Connector
(backend/services/search.py is not among the sources).  `provider n` is the
outcome of the n-th provider call; on RateLimited the call is retried until
the attempt budget is exhausted, after which ProviderError(transient) is
surfaced.  Returns the number of provider calls made and the final outcome. -/
def retrySearch (provider : Nat → ProviderOutcome) :
    Nat → Nat → Nat × Except SearchError (List SearchResult)
  | attempt, 0 => (attempt, Except.error SearchError.transientRateLimited)
  | attempt, fuel + 1 =>
      match provider attempt with
      | ProviderOutcome.results items => (attempt + 1, Except.ok items)
      | ProviderOutcome.failed => (attempt + 1, Except.error SearchError.permanent)
      | ProviderOutcome.rateLimited => retrySearch provider (attempt + 1) fuel

/-- The attempt budget of the retry loop: 3 total attempts. -/
def maxAttempts : Nat := 3

/-- Modelled from the spec: one `search` call with rate-limit retries,
capped at `maxAttempts` total provider calls. -/
def searchWithRetry (provider : Nat → ProviderOutcome) :
    Nat × Except SearchError (List SearchResult) :=
  retrySearch provider 0 maxAttempts

end Core

namespace Frontend

/-- A successful backend response whose body carries a non-empty `timeline`
array (as the outbound contract describes) and no `events` field. -/
def timelineOnlyResponse : HttpResponse :=
  { ok := true, status := 200, statusText := "OK"
    data := { answer := some "Quantum computing uses qubits."
              citations := some [{ url := "https://example.com/q", title := some "Qubits" }]
              events := none
              timeline := some [{ message := some "Searched 3 sources", raw := "" }] } }

/-- A successful backend response carrying one backend-provided event in the
`events` array that the page actually reads. -/
def oneEventResponse : HttpResponse :=
  { ok := true, status := 200, statusText := "OK"
    data := { answer := some "An answer.", citations := some []
              events := some [{ message := some "Found 3 sources", raw := "" }]
              timeline := none } }

end Frontend

/-- A sample search result used to evaluate the core model on concrete inputs. -/
def demoSource : Core.SearchResult :=
  { url := "https://example.com/quantum", title := "Quantum computing"
    snippet := "Qubits explained", sourceProvider := "mock" }

/-- A provider mock that signals RateLimited on its first two calls and then
succeeds (Scenario D of the spec). -/
def mockRateLimitedTwice : Nat → Core.ProviderOutcome := fun n =>
  if n < 2 then Core.ProviderOutcome.rateLimited
  else Core.ProviderOutcome.results [demoSource]

/-- Each step of a scanl that appends one element extends the previous list,
so consecutive accumulator values are related by the list-prefix order. -/
theorem chain_scanl_append {α : Type} (l : List α) (init : List α) :
    List.Chain' (· <+: ·) (List.scanl (fun acc e => acc ++ [e]) init l) := by
  induction l generalizing init with
  | nil => simp
  | cons a l ih =>
      rw [List.scanl_cons]
      rw [List.singleton_append, List.chain'_cons']
      refine ⟨?_, ih (init ++ [a])⟩
      intro y hy
      cases l with
      | nil =>
          simp [List.scanl] at hy
          exact hy ▸ ⟨[a], rfl⟩
      | cons b l' =>
          rw [List.scanl_cons] at hy
          simp at hy
          exact hy ▸ ⟨[a], rfl⟩

/-- Claim C1 (counterexample): the body the UI sends for a concrete query
has no `source` field at all, contradicting the stated inbound contract. -/
theorem c1_counterexample :
    ¬ ∃ s, Frontend.lookupField (Frontend.researchRequestBody "What is quantum computing?")
        "source" = some (Frontend.Json.str s) := by
  rintro ⟨s, h⟩
  simp [Frontend.researchRequestBody, Frontend.lookupField, List.lookup] at h

/-- Claim C1 (amended): for every research request submitted from the web
UI, the HTTP request body sent to the research endpoint contains the query
string and nothing else: its only field is `query`; no `source` field and no
`maxIterations` field is sent. -/
theorem c1_request_body_query_only (query : String) :
    Frontend.lookupField (Frontend.researchRequestBody query) "query" =
        some (Frontend.Json.str query) ∧
    Frontend.lookupField (Frontend.researchRequestBody query) "source" = none ∧
    Frontend.lookupField (Frontend.researchRequestBody query) "maxIterations" = none :=
  ⟨rfl, rfl, rfl⟩

/-- Claim C2 (code bug): on a successful response whose body carries a
non-empty `timeline` field (the outbound result contract), the page appends
no event taken from it — the final timeline holds only the three synthetic
events, because the code reads `data.events` instead of `data.timeline`. -/
theorem c2_timeline_field_dropped :
    (Frontend.handleResearch Frontend.natClock "quantum computing"
        (Frontend.FetchResult.resolved Frontend.timelineOnlyResponse)).timeline.map
        Frontend.TimelineEvent.id = ["start", "processing", "complete"] ∧
    Frontend.timelineOnlyResponse.data.timeline =
      some [{ message := some "Searched 3 sources", raw := "" }] :=
  ⟨rfl, rfl⟩

/-- Claim C3 (counterexample): for a successful response carrying one
backend-provided event, the event is NOT appended before the final
completion event — in the resulting timeline the completion event comes
first. -/
theorem c3_counterexample :
    ¬ ((Frontend.handleResearch Frontend.natClock "q"
          (Frontend.FetchResult.resolved Frontend.oneEventResponse)).timeline.map
          Frontend.TimelineEvent.id).indexOf "event-0" <
        ((Frontend.handleResearch Frontend.natClock "q"
          (Frontend.FetchResult.resolved Frontend.oneEventResponse)).timeline.map
          Frontend.TimelineEvent.id).indexOf "complete" := by
  decide

/-- Claim C3 (amended): for every successful response, the final timeline
consists of the start, processing and completion events followed by the
backend-provided events; the backend events keep their emission (index)
order among themselves, but each of them is appended after the final
completion event, because they are scheduled with increasing setTimeout
delays while the completion event is appended synchronously. -/
theorem c3_backend_events_after_complete (clock : Nat → String)
    (query statusText : String) (status : Nat) (d : Frontend.ResponseData) :
    (Frontend.handleResearch clock query
        (Frontend.FetchResult.resolved ⟨true, status, statusText, d⟩)).timeline.map
        Frontend.TimelineEvent.id =
      ["start", "processing", "complete"] ++
        (List.range (d.events.getD []).length).map (fun i => "event-" ++ toString i) := by
  have hmap : (Frontend.deferredBackendEvents clock d).map Frontend.TimelineEvent.id
      = (List.range (d.events.getD []).length).map (fun i => "event-" ++ toString i) := by
    unfold Frontend.deferredBackendEvents
    rw [List.map_map, ← List.enum_map_fst (d.events.getD []), List.map_map]
    rfl
  simp only [Frontend.handleResearch, Frontend.timelineAppends]
  rw [if_pos trivial]
  simp only [List.map_cons, hmap]
  rfl


theorem iterLoop_le (threshold : ℚ) (maxIterations : Nat) (confidence : Nat → ℚ) :
    ∀ fuel i, Core.iterLoop threshold maxIterations confidence fuel i ≤ i + fuel := by
  intro fuel
  induction fuel with
  | zero => intro i; simp [Core.iterLoop]
  | succ n ih =>
      intro i
      have hrec := ih (i + 1)
      by_cases h : Core.sufficientVerdict threshold maxIterations i (confidence i) = true
      · simp [Core.iterLoop, h]
      · simp [Core.iterLoop, h]
        omega

theorem iterTrace_head (threshold : ℚ) (maxIterations : Nat) (confidence : Nat → ℚ) :
    ∀ fuel i y,
      (Core.iterTrace threshold maxIterations confidence fuel i).head? = some y → y = i := by
  intro fuel i y hy
  cases fuel with
  | zero => simp [Core.iterTrace] at hy
  | succ n =>
      by_cases h : Core.sufficientVerdict threshold maxIterations i (confidence i) = true
      · simp [Core.iterTrace, h] at hy
        omega
      · simp [Core.iterTrace, h] at hy
        omega

theorem iterTrace_chain (threshold : ℚ) (maxIterations : Nat) (confidence : Nat → ℚ) :
    ∀ fuel i, List.Chain' (· < ·) (Core.iterTrace threshold maxIterations confidence fuel i) := by
  intro fuel
  induction fuel with
  | zero => intro i; simp [Core.iterTrace]
  | succ n ih =>
      intro i
      by_cases h : Core.sufficientVerdict threshold maxIterations i (confidence i) = true
      · simp [Core.iterTrace, h]
      · have hstep : Core.iterTrace threshold maxIterations confidence (n + 1) i =
            i :: Core.iterTrace threshold maxIterations confidence n (i + 1) := by
          simp [Core.iterTrace, h]
        rw [hstep, List.chain'_cons']
        refine ⟨?_, ih (i + 1)⟩
        intro y hy
        rw [Option.mem_def] at hy
        have := iterTrace_head threshold maxIterations confidence n (i + 1) y hy
        omega

theorem iterLoop_eq_trace_length (threshold : ℚ) (maxIterations : Nat) (confidence : Nat → ℚ) :
    ∀ fuel i,
      Core.iterLoop threshold maxIterations confidence fuel i =
        i + (Core.iterTrace threshold maxIterations confidence fuel i).length := by
  intro fuel
  induction fuel with
  | zero => intro i; simp [Core.iterLoop, Core.iterTrace]
  | succ n ih =>
      intro i
      have hrec := ih (i + 1)
      by_cases h : Core.sufficientVerdict threshold maxIterations i (confidence i) = true
      · simp [Core.iterLoop, Core.iterTrace, h]
      · simp [Core.iterLoop, Core.iterTrace, h]
        omega

/-- Claim C4: for every request the number of iterations used never exceeds
the request's maxIterations, and the iteration index increases strictly
monotonically over the run (the visited indices also count exactly the
iterations used).  Modelled from the spec, as the backend agent code is not
among the sources. -/
theorem c4_iteration_budget (threshold : ℚ) (maxIterations : Nat) (confidence : Nat → ℚ) :
    Core.iterationsUsed threshold maxIterations confidence ≤ maxIterations ∧
    List.Chain' (· < ·) (Core.iterationTrace threshold maxIterations confidence) ∧
    (Core.iterationTrace threshold maxIterations confidence).length =
      Core.iterationsUsed threshold maxIterations confidence := by
  refine ⟨?_, iterTrace_chain threshold maxIterations confidence maxIterations 0, ?_⟩
  · have := iterLoop_le threshold maxIterations confidence maxIterations 0
    simpa [Core.iterationsUsed] using this
  · have := iterLoop_eq_trace_length threshold maxIterations confidence maxIterations 0
    simp only [Core.iterationsUsed, Core.iterationTrace]
    omega

/-- Claim C5: for every ResearchResult with status completed or degraded,
every citation's url is present in the request's EvidencePool and every
citation's relevanceScore lies in [0,1].  Modelled from the spec, as the
backend synthesis code is not among the sources. -/
theorem c5_citations_valid (requestId question : String) (pool : List Core.SearchResult)
    (latestConfidence threshold : ℚ) (iterations : Nat)
    (hstatus :
      (Core.buildResult requestId question pool latestConfidence threshold iterations).status =
          Core.ResultStatus.completed ∨
        (Core.buildResult requestId question pool latestConfidence threshold iterations).status =
          Core.ResultStatus.degraded) :
    ∀ c ∈ (Core.buildResult requestId question pool latestConfidence threshold
        iterations).citations,
      c.url ∈ pool.map Core.SearchResult.url ∧
        0 ≤ c.relevanceScore ∧ c.relevanceScore ≤ 1 := by
  intro c hc
  cases pool with
  | nil => simp [Core.buildResult, Core.synthesize] at hc
  | cons a rest =>
      simp only [Core.buildResult, Core.synthesize] at hc
      rw [List.mem_map] at hc
      obtain ⟨⟨i, s⟩, hie, rfl⟩ := hc
      have hs : s ∈ a :: rest := by
        rw [List.enum_eq_zip_range] at hie
        exact (List.of_mem_zip hie).2
      refine ⟨List.mem_map_of_mem Core.SearchResult.url hs, ?_, ?_⟩
      · positivity
      · rw [div_le_one (by positivity)]
        have : (0 : ℚ) ≤ (i : ℚ) := Nat.cast_nonneg i
        linarith

/-- Witness for C5: a concrete completed result whose single citation is
drawn from the pool with relevance score 1. -/
theorem c5_citations_valid_witness :
    ((Core.buildResult "r1" "question" [demoSource] (9 / 10) (3 / 4) 1).status =
          Core.ResultStatus.completed ∨
        (Core.buildResult "r1" "question" [demoSource] (9 / 10) (3 / 4) 1).status =
          Core.ResultStatus.degraded) ∧
      ∀ c ∈ (Core.buildResult "r1" "question" [demoSource] (9 / 10) (3 / 4) 1).citations,
        c.url ∈ [demoSource].map Core.SearchResult.url ∧
          0 ≤ c.relevanceScore ∧ c.relevanceScore ≤ 1 := by
  have hs : (Core.buildResult "r1" "question" [demoSource] (9 / 10) (3 / 4) 1).status =
      Core.ResultStatus.completed := by
    simp only [Core.buildResult, Core.synthesize]
    norm_num
  exact ⟨Or.inl hs,
    c5_citations_valid "r1" "question" [demoSource] (9 / 10) (3 / 4) 1 (Or.inl hs)⟩

theorem retrySearch_rl_step (provider : Nat → Core.ProviderOutcome) (attempt fuel : Nat)
    (h : provider attempt = Core.ProviderOutcome.rateLimited) :
    Core.retrySearch provider attempt (fuel + 1) =
      Core.retrySearch provider (attempt + 1) fuel := by
  simp only [Core.retrySearch, h]

theorem retrySearch_results_step (provider : Nat → Core.ProviderOutcome)
    (attempt fuel : Nat) (items : List Core.SearchResult)
    (h : provider attempt = Core.ProviderOutcome.results items) :
    Core.retrySearch provider attempt (fuel + 1) = (attempt + 1, Except.ok items) := by
  simp only [Core.retrySearch, h]

theorem retrySearch_calls_le (provider : Nat → Core.ProviderOutcome) :
    ∀ fuel attempt, (Core.retrySearch provider attempt fuel).1 ≤ attempt + fuel := by
  intro fuel
  induction fuel with
  | zero => intro attempt; simp [Core.retrySearch]
  | succ n ih =>
      intro attempt
      have hrec := ih (attempt + 1)
      cases h : provider attempt with
      | results items => simp [Core.retrySearch, h]
      | failed => simp [Core.retrySearch, h]
      | rateLimited =>
          rw [retrySearch_rl_step provider attempt n h]
          omega

theorem retrySearch_rl_exhausted (provider : Nat → Core.ProviderOutcome) :
    ∀ fuel attempt,
      (Core.retrySearch provider attempt fuel).2 =
          Except.error Core.SearchError.transientRateLimited →
        ∀ k, attempt ≤ k → k < attempt + fuel →
          provider k = Core.ProviderOutcome.rateLimited := by
  intro fuel
  induction fuel with
  | zero => intro attempt _ k hk1 hk2; omega
  | succ n ih =>
      intro attempt herr k hk1 hk2
      cases h : provider attempt with
      | results items =>
          rw [retrySearch_results_step provider attempt n items h] at herr
          simp at herr
      | failed =>
          simp [Core.retrySearch, h] at herr
      | rateLimited =>
          rw [retrySearch_rl_step provider attempt n h] at herr
          rcases Nat.eq_or_lt_of_le hk1 with heq | hlt
          · exact heq ▸ h
          · exact ih (attempt + 1) herr k hlt (by omega)

/-- Claim C6: rate-limited search calls are retried, capped at 3 total
attempts; the rate-limit error is surfaced only when all attempts in the
budget were rate limited; and a provider returning RateLimited twice and
then succeeding sees exactly 3 calls with the final result used and no
error.  Modelled from the spec, as the backend search service is not among
the sources. -/
theorem c6_rate_limit_retry (provider : Nat → Core.ProviderOutcome) :
    (Core.searchWithRetry provider).1 ≤ 3 ∧
    ((Core.searchWithRetry provider).2 =
        Except.error Core.SearchError.transientRateLimited →
      ∀ k < 3, provider k = Core.ProviderOutcome.rateLimited) ∧
    (provider 0 = Core.ProviderOutcome.rateLimited →
      provider 1 = Core.ProviderOutcome.rateLimited →
        ∀ items, provider 2 = Core.ProviderOutcome.results items →
          Core.searchWithRetry provider = (3, Except.ok items)) := by
  refine ⟨?_, ?_, ?_⟩
  · have := retrySearch_calls_le provider 3 0
    simpa [Core.searchWithRetry, Core.maxAttempts] using this
  · intro herr k hk
    have h := retrySearch_rl_exhausted provider 3 0 herr k (Nat.zero_le k) (by omega)
    exact h
  · intro h0 h1 items h2
    calc Core.searchWithRetry provider
        = Core.retrySearch provider 1 2 := retrySearch_rl_step provider 0 2 h0
      _ = Core.retrySearch provider 2 1 := retrySearch_rl_step provider 1 1 h1
      _ = (3, Except.ok items) := retrySearch_results_step provider 2 0 items h2

/-- Witness for C6: the Scenario D provider mock makes exactly 3 calls and
the final result is used with no error surfaced. -/
theorem c6_rate_limit_retry_witness :
    Core.searchWithRetry mockRateLimitedTwice = (3, Except.ok [demoSource]) :=
  (c6_rate_limit_retry mockRateLimitedTwice).2.2 rfl rfl [demoSource] rfl

/-- Claim C7: after the start event is emitted, every update handleResearch
makes to the timeline state appends to the previous value: each successive
timeline in the trace extends the previous one as a prefix, so previously
appended events are preserved unchanged, in place and in order, and no
event is mutated after emission. -/
theorem c7_timeline_append_only (clock : Nat → String) (query : String)
    (f : Frontend.FetchResult) :
    List.Chain' (· <+: ·) (Frontend.timelineTrace clock query f) ∧
    (Frontend.timelineTrace clock query f).head? = some [Frontend.startEvent clock query] := by
  refine ⟨chain_scanl_append _ _, ?_⟩
  unfold Frontend.timelineTrace
  cases Frontend.timelineAppends clock f with
  | nil => rfl
  | cons a l => rfl

/-- Claim C8: the ResearchForm submit handler invokes onSubmit only with the
trimmed, non-empty question and never while a previous request is loading; a
question that is empty after trimming is never submitted. -/
theorem c8_submit_guard (query : String) (isLoading : Bool) :
    (∀ s, Frontend.handleSubmit query isLoading = some s →
        s = Frontend.trimString query ∧ s ≠ "" ∧ isLoading = false) ∧
    (Frontend.trimString query = "" → Frontend.handleSubmit query isLoading = none) ∧
    (isLoading = true → Frontend.handleSubmit query isLoading = none) := by
  unfold Frontend.handleSubmit
  split
  case isTrue h =>
      refine ⟨?_, fun _ => rfl, fun _ => rfl⟩
      intro s hs
      exact absurd hs (by simp)
  case isFalse h =>
      push_neg at h
      obtain ⟨hne, hload⟩ := h
      refine ⟨?_, fun he => absurd he hne, fun hl => absurd hl hload⟩
      intro s hs
      have hse : Frontend.trimString query = s := by injection hs
      refine ⟨hse.symm, hse ▸ hne, ?_⟩
      cases isLoading
      · rfl
      · exact absurd rfl hload

/-- Witness for C8: a concrete padded question is submitted as its trimmed,
non-empty text when not loading. -/
theorem c8_submit_guard_witness :
    "What is AI?" = Frontend.trimString "  What is AI?  " ∧
      "What is AI?" ≠ "" ∧ false = false :=
  (c8_submit_guard "  What is AI?  " false).1 "What is AI?" (by decide)

/-- Claim C9: after each poll, useHealthCheck reports online exactly when
the health fetch resolved within the timeout with an ok status; any non-ok
status, network failure, or timeout yields offline; before the first poll
completes the reported status is checking (and the abort timeout is 5000 ms). -/
theorem c9_health_reporting :
    (∀ o, Frontend.checkHealth o = Frontend.HealthStatus.online ↔
        o = Frontend.HealthFetchOutcome.resolved true) ∧
    Frontend.checkHealth (Frontend.HealthFetchOutcome.resolved false) =
        Frontend.HealthStatus.offline ∧
    Frontend.checkHealth Frontend.HealthFetchOutcome.timedOut =
        Frontend.HealthStatus.offline ∧
    Frontend.checkHealth Frontend.HealthFetchOutcome.networkError =
        Frontend.HealthStatus.offline ∧
    Frontend.initialHealthStatus = Frontend.HealthStatus.checking ∧
    Frontend.healthCheckTimeoutMs = 5000 := by
  refine ⟨?_, rfl, rfl, rfl, rfl, rfl⟩
  intro o
  cases o with
  | resolved ok => cases ok <;> decide
  | timedOut => decide
  | networkError => decide

/-- Claim C10: when the fetch rejects or the response status is not ok,
handleResearch records an error message, appends exactly one error event to
the timeline, and leaves the displayed answer text and citation list empty
as cleared at the start of the request. -/
theorem c10_failure_no_partial_answer (clock : Nat → String)
    (query msg statusText : String) (status : Nat) (d : Frontend.ResponseData) :
    ((Frontend.handleResearch clock query (Frontend.FetchResult.rejected msg)).error =
        some msg ∧
      (Frontend.handleResearch clock query (Frontend.FetchResult.rejected msg)).answer = "" ∧
      (Frontend.handleResearch clock query (Frontend.FetchResult.rejected msg)).citations =
        [] ∧
      (Frontend.handleResearch clock query
          (Frontend.FetchResult.rejected msg)).timeline.countP
          (fun e => e.type == some "error") = 1) ∧
    ((Frontend.handleResearch clock query
          (Frontend.FetchResult.resolved ⟨false, status, statusText, d⟩)).error =
        some ("Backend error: " ++ toString status ++ " " ++ statusText) ∧
      (Frontend.handleResearch clock query
          (Frontend.FetchResult.resolved ⟨false, status, statusText, d⟩)).answer = "" ∧
      (Frontend.handleResearch clock query
          (Frontend.FetchResult.resolved ⟨false, status, statusText, d⟩)).citations = [] ∧
      (Frontend.handleResearch clock query
          (Frontend.FetchResult.resolved ⟨false, status, statusText, d⟩)).timeline.countP
          (fun e => e.type == some "error") = 1) :=
  ⟨⟨rfl, rfl, rfl, rfl⟩, ⟨rfl, rfl, rfl, rfl⟩⟩
